import Mathlib

/-!
# CascadeRouter — shallow embedding and verification

A shallow embedding of the routing-and-race decision engine of the
CascadeRouter repository (`src/core/router.ts`, `src/core/limiter.ts`,
`src/types.ts`), together with proofs and refutations of the frozen claims.

Modelling conventions:
* JavaScript numbers are modelled as exact rationals (`ℚ`); token counts as `ℕ`.
* A JavaScript `Map` is modelled as an insertion-ordered association list
  (`List (String × β)`); `Map.set` updates an existing key in place and
  otherwise appends, matching JS insertion-order semantics.
* `Date.now()` is modelled by threading an explicit clock `now : ℚ` that
  advances by each attempt's duration.
* Endpoint adapters are asynchronous collaborators; their observable behavior
  in one `route()` call is modelled by an oracle `Behavior` mapping an
  endpoint id to the outcome (success with a response and duration, or
  failure with an error message and duration) that the adapter's call
  produces for this request.
* `Array.prototype.sort` with a consistent numeric comparator is a stable
  sort by the comparator's key; it is modelled by `List.insertionSort`
  (stable) over the corresponding key order.
* Thrown exceptions are modelled by `Except` with an explicit error kind.
* Human-readable message strings are carried as fixed literals; the numeric
  values interpolated into them in the source are elided (no claim inspects
  message text).
-/

-- ============================================================================
-- Association-list model of a JavaScript Map
-- ============================================================================

/-- `Map.get`: first entry with the given key. -/
def mapGet {β : Type} : List (String × β) → String → Option β
  | [], _ => none
  | e :: rest, k => if e.1 = k then some e.2 else mapGet rest k

/-- `Map.set`: replace the value at an existing key in place (keeping the
insertion position), otherwise append a new entry. -/
def mapSet {β : Type} : List (String × β) → String → β → List (String × β)
  | [], k, v => [(k, v)]
  | e :: rest, k, v => if e.1 = k then (k, v) :: rest else e :: mapSet rest k v

theorem mapGet_mapSet_same {β : Type} (m : List (String × β)) (k : String) (v : β) :
    mapGet (mapSet m k v) k = some v := by
  induction m with
  | nil => simp [mapGet, mapSet]
  | cons e rest ih =>
    by_cases h : e.1 = k
    · simp [mapSet, h, mapGet]
    · simp [mapSet, h, mapGet, ih]

theorem mapGet_mapSet_other {β : Type} (m : List (String × β)) (k q : String) (v : β)
    (h : q ≠ k) : mapGet (mapSet m k v) q = mapGet m q := by
  induction m with
  | nil =>
    have hkq : ¬ (k = q) := fun hh => h hh.symm
    simp only [mapSet, mapGet, if_neg hkq]
  | cons e rest ih =>
    by_cases he : e.1 = k
    · have hkq : ¬ (k = q) := fun hh => h hh.symm
      have heq : ¬ (e.1 = q) := fun hh => hkq (he ▸ hh)
      rw [mapSet, if_pos he, mapGet, if_neg hkq, mapGet, if_neg heq]
    · rw [mapSet, if_neg he, mapGet, mapGet]
      by_cases heq : e.1 = q
      · rw [if_pos heq, if_pos heq]
      · rw [if_neg heq, if_neg heq, ih]

theorem mapSet_ne_nil {β : Type} (m : List (String × β)) (k : String) (v : β) :
    mapSet m k v ≠ [] := by
  cases m with
  | nil => simp [mapSet]
  | cons e rest =>
    by_cases h : e.1 = k <;> simp [mapSet, h]

-- ============================================================================
-- Data model (src/types.ts)
-- ============================================================================

/-- `ProviderConfig` (src/types.ts): static descriptor of one endpoint.
Adapter-only fields (apiKey, baseUrl, model, nested config) are out of the
engine's scope and omitted. -/
structure ProviderConfig where
  id : String
  name : String
  type : String
  enabled : Bool
  priority : ℚ
  maxTokens : ℕ
  costPerMillionTokens : ℚ
  latency : ℚ
  availability : ℚ
  timeout : Option ℚ := none
  deriving DecidableEq

/-- A registered provider: the engine reads only its id and its config; its
adapter methods are modelled by the `Behavior` oracle. -/
structure Provider where
  id : String
  config : ProviderConfig
  deriving DecidableEq

structure ChatMessage where
  role : String
  content : String
  deriving DecidableEq

/-- `ChatRequest` (src/types.ts). -/
structure ChatRequest where
  prompt : String
  messages : Option (List ChatMessage) := none
  maxTokens : Option ℕ := none
  temperature : Option ℚ := none
  stream : Option Bool := none
  deriving DecidableEq

structure TokenUsage where
  input : ℕ
  output : ℕ
  total : ℕ
  deriving DecidableEq

/-- `ChatResponse` (src/types.ts). -/
structure ChatResponse where
  content : String
  model : String
  provider : String
  tokens : TokenUsage
  cost : ℚ
  duration : ℚ
  finishReason : String
  deriving DecidableEq

/-- `RoutingStrategy` (src/types.ts): the union type lists six strategies.
The test-suite and changelog additionally drive the router with the runtime
value `'speculative'`, which the `selectProviders` switch handles through its
`default` branch; it is therefore included as a seventh constructor so that
the router's runtime behavior on that value can be stated. -/
inductive RoutingStrategy where
  | cost
  | speed
  | quality
  | balanced
  | priority
  | fallback
  | speculative
  deriving DecidableEq

/-- `RoutingAttempt` (src/types.ts). -/
structure RoutingAttempt where
  provider : String
  success : Bool
  duration : ℚ
  error : Option String := none
  deriving DecidableEq

/-- `RoutingDecision` (src/types.ts). -/
structure RoutingDecision where
  selectedProvider : String
  strategy : RoutingStrategy
  reasoning : String
  alternatives : List String
  fallbackTriggered : Bool
  deriving DecidableEq

/-- `RoutingResult` (src/types.ts). -/
structure RoutingResult where
  provider : String
  response : ChatResponse
  routingDecision : RoutingDecision
  attempts : List RoutingAttempt
  totalCost : ℚ
  totalDuration : ℚ
  deriving DecidableEq

/-- `BudgetLimits` (src/types.ts). -/
structure BudgetLimits where
  dailyTokens : ℚ
  dailyCost : ℚ
  monthlyTokens : ℚ
  monthlyCost : ℚ
  alertThreshold : ℚ
  deriving DecidableEq

/-- `RateLimits` (src/types.ts). -/
structure RateLimits where
  requestsPerMinute : ℚ
  tokensPerMinute : ℚ
  concurrentRequests : ℚ
  deriving DecidableEq

/-- `ProviderMetrics` (src/types.ts). -/
structure ProviderMetrics where
  providerId : String
  requestCount : ℕ
  successCount : ℕ
  failureCount : ℕ
  totalTokens : ℕ
  totalCost : ℚ
  avgLatency : ℚ
  lastUsed : ℚ
  deriving DecidableEq

/-- `BudgetUsage` (src/core/limiter.ts). -/
structure BudgetUsage where
  dailyTokens : ℚ
  dailyCost : ℚ
  monthlyTokens : ℚ
  monthlyCost : ℚ
  dailyPercentage : ℚ
  monthlyPercentage : ℚ
  deriving DecidableEq

/-- `RouterMetrics` (src/types.ts); the per-endpoint `Map` is an
insertion-ordered association list. -/
structure RouterMetrics where
  totalRequests : ℕ
  totalCost : ℚ
  totalTokens : ℕ
  providerMetrics : List (String × ProviderMetrics)
  budgetUsage : BudgetUsage
  rateLimitHits : ℕ
  fallbackCount : ℕ
  deriving DecidableEq

/-- `RoutingConfig` (src/types.ts); the CLI-level fields `providers`,
`defaultProvider` and `progressCheckpoints` are not read by the engine and
are omitted. -/
structure RoutingConfig where
  strategy : RoutingStrategy
  fallbackEnabled : Bool
  maxRetries : ℕ
  timeout : ℚ
  budgetLimits : Option BudgetLimits := none
  rateLimits : Option RateLimits := none

-- ============================================================================
-- Usage limiter (src/core/limiter.ts)
-- ============================================================================

/-- `UsageRecord` (src/core/limiter.ts). -/
structure UsageRecord where
  tokens : ℕ
  cost : ℚ
  timestamp : ℚ
  deriving DecidableEq

structure TokenUsageRecord where
  timestamp : ℚ
  tokens : ℕ
  deriving DecidableEq

/-- `BudgetCheck` (src/core/limiter.ts); `budgetType` carries the literal
`"daily"` or `"monthly"`. -/
structure BudgetCheck where
  allowed : Bool
  reason : Option String := none
  budgetType : Option String := none
  usage : ℚ
  limit : ℚ
  deriving DecidableEq

/-- `RateLimitCheck` (src/core/limiter.ts). -/
structure RateLimitCheck where
  allowed : Bool
  reason : Option String := none
  provider : Option String := none
  retryAfter : Option ℚ := none
  deriving DecidableEq

/-- State of the `TokenLimiter` class (src/core/limiter.ts). -/
structure TokenLimiter where
  budgetLimits : Option BudgetLimits := none
  rateLimits : Option RateLimits := none
  dailyUsage : List UsageRecord := []
  monthlyUsage : List UsageRecord := []
  requestHistory : List ℚ := []
  tokenUsageHistory : List TokenUsageRecord := []

/-- `estimateTextTokens`: `Math.ceil(text.length / 4)`. -/
def TokenLimiter.estimateTextTokens (text : String) : ℕ :=
  (text.length + 3) / 4

/-- `estimateRequestTokens`: prompt tokens, plus tokens of each prior message,
plus `maxTokens` when given, else a default estimate of 500 output tokens. -/
def TokenLimiter.estimateRequestTokens (request : ChatRequest) : ℕ :=
  let base := TokenLimiter.estimateTextTokens request.prompt
  let withMessages :=
    match request.messages with
    | some msgs => base + (msgs.map fun m => TokenLimiter.estimateTextTokens m.content).sum
    | none => base
  match request.maxTokens with
  | some mt => withMessages + mt
  | none => withMessages + 500

/-- `estimateCost`: `(tokens / 1_000_000) * costPerMillion` with the fixed
default `costPerMillion = 1`. -/
def TokenLimiter.estimateCost (tokens : ℚ) : ℚ :=
  tokens / 1000000 * 1

/-- `calculateDailyUsage`: sum of daily-ledger entries younger than 24h. -/
def TokenLimiter.calculateDailyUsage (lim : TokenLimiter) (now : ℚ) : ℚ × ℚ :=
  let recent := lim.dailyUsage.filter fun record => decide (record.timestamp > now - 86400000)
  ((recent.map fun record => (record.tokens : ℚ)).sum, (recent.map fun record => record.cost).sum)

/-- `calculateMonthlyUsage`: sum of monthly-ledger entries younger than 30 days. -/
def TokenLimiter.calculateMonthlyUsage (lim : TokenLimiter) (now : ℚ) : ℚ × ℚ :=
  let recent := lim.monthlyUsage.filter fun record => decide (record.timestamp > now - 2592000000)
  ((recent.map fun record => (record.tokens : ℚ)).sum, (recent.map fun record => record.cost).sum)

/-- `checkBudget` (src/core/limiter.ts lines 67–135): projects the estimated
request onto the recorded daily/monthly ledgers and tests each configured
positive ceiling in source order. -/
def TokenLimiter.checkBudget (lim : TokenLimiter) (now : ℚ) (request : ChatRequest) :
    BudgetCheck :=
  match lim.budgetLimits with
  | none => { allowed := true, usage := 0, limit := 0 }
  | some limits =>
    let estimatedTokens : ℚ := (TokenLimiter.estimateRequestTokens request : ℚ)
    let estimatedCost := TokenLimiter.estimateCost estimatedTokens
    let dailyUsage := lim.calculateDailyUsage now
    let dailyTokensAfter := dailyUsage.1 + estimatedTokens
    let dailyCostAfter := dailyUsage.2 + estimatedCost
    if limits.dailyTokens > 0 ∧ dailyTokensAfter > limits.dailyTokens then
      { allowed := false,
        reason := some "Daily token limit would be exceeded",
        budgetType := some "daily",
        usage := dailyTokensAfter,
        limit := limits.dailyTokens }
    else if limits.dailyCost > 0 ∧ dailyCostAfter > limits.dailyCost then
      { allowed := false,
        reason := some "Daily cost limit would be exceeded",
        budgetType := some "daily",
        usage := dailyCostAfter,
        limit := limits.dailyCost }
    else
      let monthlyUsage := lim.calculateMonthlyUsage now
      let monthlyTokensAfter := monthlyUsage.1 + estimatedTokens
      let monthlyCostAfter := monthlyUsage.2 + estimatedCost
      if limits.monthlyTokens > 0 ∧ monthlyTokensAfter > limits.monthlyTokens then
        { allowed := false,
          reason := some "Monthly token limit would be exceeded",
          budgetType := some "monthly",
          usage := monthlyTokensAfter,
          limit := limits.monthlyTokens }
      else if limits.monthlyCost > 0 ∧ monthlyCostAfter > limits.monthlyCost then
        { allowed := false,
          reason := some "Monthly cost limit would be exceeded",
          budgetType := some "monthly",
          usage := monthlyCostAfter,
          limit := limits.monthlyCost }
      else
        { allowed := true, usage := dailyCostAfter, limit := limits.dailyCost }

/-- `checkRateLimits` (src/core/limiter.ts lines 140–183). -/
def TokenLimiter.checkRateLimits (lim : TokenLimiter) (now : ℚ) : RateLimitCheck :=
  match lim.rateLimits with
  | none => { allowed := true }
  | some limits =>
    let oneMinuteAgo := now - 60000
    let recentRequests := lim.requestHistory.filter fun timestamp => decide (timestamp > oneMinuteAgo)
    if limits.requestsPerMinute > 0 ∧ (recentRequests.length : ℚ) ≥ limits.requestsPerMinute then
      let oldestRequest := recentRequests.headD 0
      let retryAfter : ℚ := ⌈(oldestRequest + 60000 - now) / 1000⌉
      { allowed := false,
        reason := some "Rate limit exceeded",
        retryAfter := some retryAfter }
    else
      let recentTokens :=
        ((lim.tokenUsageHistory.filter fun record => decide (record.timestamp > oneMinuteAgo)).map
          fun record => (record.tokens : ℚ)).sum
      if limits.tokensPerMinute > 0 ∧ recentTokens ≥ limits.tokensPerMinute then
        { allowed := false, reason := some "Token rate limit exceeded" }
      else
        { allowed := true }

/-- `cleanupOldRecords`: prune all four ledgers by their windows. -/
def TokenLimiter.cleanupOldRecords (lim : TokenLimiter) (now : ℚ) : TokenLimiter :=
  { lim with
    dailyUsage := lim.dailyUsage.filter fun record => decide (record.timestamp > now - 86400000),
    monthlyUsage := lim.monthlyUsage.filter fun record => decide (record.timestamp > now - 2592000000),
    requestHistory := lim.requestHistory.filter fun timestamp => decide (timestamp > now - 60000),
    tokenUsageHistory := lim.tokenUsageHistory.filter fun record => decide (record.timestamp > now - 60000) }

/-- `recordUsage` (src/core/limiter.ts lines 188–217). -/
def TokenLimiter.recordUsage (lim : TokenLimiter) (tokens : TokenUsage) (now : ℚ) :
    TokenLimiter :=
  let cost := TokenLimiter.estimateCost (tokens.total : ℚ)
  let lim' :=
    { lim with
      requestHistory := lim.requestHistory ++ [now],
      tokenUsageHistory := lim.tokenUsageHistory ++ [TokenUsageRecord.mk now tokens.total],
      dailyUsage := lim.dailyUsage ++ [UsageRecord.mk tokens.total cost now],
      monthlyUsage := lim.monthlyUsage ++ [UsageRecord.mk tokens.total cost now] }
  lim'.cleanupOldRecords now

-- ============================================================================
-- Key orders used by the candidate sorts
-- ============================================================================

/-- The ascending order induced by a rational key; models a JS numeric
comparator `(a, b) => key(a) - key(b)`. -/
def leBy {α : Type} (key : α → ℚ) (a b : α) : Prop := key a ≤ key b

instance {α : Type} (key : α → ℚ) : DecidableRel (leBy key) := fun a b =>
  inferInstanceAs (Decidable (key a ≤ key b))

instance {α : Type} (key : α → ℚ) : IsTotal α (leBy key) :=
  ⟨fun a b => le_total (key a) (key b)⟩

instance {α : Type} (key : α → ℚ) : IsTrans α (leBy key) :=
  ⟨fun _ _ _ => le_trans⟩

/-- The descending order induced by a rational key; models a JS numeric
comparator `(a, b) => key(b) - key(a)`. -/
def geBy {α : Type} (key : α → ℚ) (a b : α) : Prop := key b ≤ key a

instance {α : Type} (key : α → ℚ) : DecidableRel (geBy key) := fun a b =>
  inferInstanceAs (Decidable (key b ≤ key a))

instance {α : Type} (key : α → ℚ) : IsTotal α (geBy key) :=
  ⟨fun a b => (le_total (key b) (key a)).imp id id⟩

instance {α : Type} (key : α → ℚ) : IsTrans α (geBy key) :=
  ⟨fun _ _ _ h h' => le_trans h' h⟩

-- ============================================================================
-- Routing engine (src/core/router.ts)
-- ============================================================================

/-- State of the `Router` class (src/core/router.ts): the provider map, the
routing config, the limiter, the metrics and the initialization flag. -/
structure Router where
  providers : List (String × Provider)
  config : RoutingConfig
  limiter : TokenLimiter
  metrics : RouterMetrics
  initialized : Bool

/-- `createEmptyProviderMetrics` (src/core/router.ts lines 521–532). -/
def createEmptyProviderMetrics (providerId : String) : ProviderMetrics :=
  { providerId
    requestCount := 0
    successCount := 0
    failureCount := 0
    totalTokens := 0
    totalCost := 0
    avgLatency := 0
    lastUsed := 0 }

/-- `createEmptyMetrics` (src/core/router.ts lines 502–519). -/
def createEmptyMetrics : RouterMetrics :=
  { totalRequests := 0
    totalCost := 0
    totalTokens := 0
    providerMetrics := []
    budgetUsage :=
      { dailyTokens := 0, dailyCost := 0, monthlyTokens := 0, monthlyCost := 0,
        dailyPercentage := 0, monthlyPercentage := 0 }
    rateLimitHits := 0
    fallbackCount := 0 }

/-- The `Router` constructor (src/core/router.ts lines 40–48); the progress
monitor carries no routing-relevant state and is not modelled. -/
def Router.new (config : RoutingConfig) : Router :=
  { providers := []
    config
    limiter := { budgetLimits := config.budgetLimits, rateLimits := config.rateLimits }
    metrics := createEmptyMetrics
    initialized := false }

/-- `registerProvider` (src/core/router.ts lines 53–56). -/
def Router.registerProvider (r : Router) (provider : Provider) : Router :=
  { r with
    providers := mapSet r.providers provider.id provider,
    metrics :=
      { r.metrics with
        providerMetrics :=
          mapSet r.metrics.providerMetrics provider.id
            (createEmptyProviderMetrics provider.id) } }

/-- The provider a sort comparator dereferences with `this.providers.get(x)!`;
the comparators are only ever applied to ids present in the map, so the
default is never consulted in an actual run. -/
def Router.getConfig (r : Router) (id : String) : ProviderConfig :=
  match mapGet r.providers id with
  | some p => p.config
  | none =>
    { id := "", name := "", type := "", enabled := false, priority := 0,
      maxTokens := 0, costPerMillionTokens := 0, latency := 0, availability := 0 }

/-- `sortByCost` (src/core/router.ts lines 360–369): stable ascending sort by
declared cost per million tokens. -/
def Router.sortByCost (r : Router) (providerIds : List String) : List String :=
  List.insertionSort (leBy fun id => (r.getConfig id).costPerMillionTokens) providerIds

/-- `sortBySpeed` (src/core/router.ts lines 371–377): stable ascending sort by
declared latency. -/
def Router.sortBySpeed (r : Router) (providerIds : List String) : List String :=
  List.insertionSort (leBy fun id => (r.getConfig id).latency) providerIds

/-- `sortByQuality` (src/core/router.ts lines 379–386): stable ascending sort
by declared priority rank. -/
def Router.sortByQuality (r : Router) (providerIds : List String) : List String :=
  List.insertionSort (leBy fun id => (r.getConfig id).priority) providerIds

/-- `sortByPriority` (src/core/router.ts lines 413–419): stable ascending sort
by declared priority rank. -/
def Router.sortByPriority (r : Router) (providerIds : List String) : List String :=
  List.insertionSort (leBy fun id => (r.getConfig id).priority) providerIds

/-- The per-endpoint score computed by `sortByBalanced`
(src/core/router.ts lines 394–405). -/
def balancedScore (config : ProviderConfig) : ℚ :=
  let costScore := 1 - config.costPerMillionTokens / 100
  let speedScore := 1 - config.latency / 10000
  let qualityScore := 1 - config.priority / 100
  let availabilityScore := config.availability
  costScore * 0.4 + speedScore * 0.3 + qualityScore * 0.2 + availabilityScore * 0.1

/-- `sortByBalanced` (src/core/router.ts lines 388–411): pair each id with its
score, stable-sort the pairs descending by score, project the ids. -/
def Router.sortByBalanced (r : Router) (providerIds : List String)
    (_request : ChatRequest) : List String :=
  let scores := providerIds.map fun id => (id, balancedScore (r.getConfig id))
  (List.insertionSort (geBy fun s : String × ℚ => s.2) scores).map fun s => s.1

/-- The error kinds a `route`/`routeStream` call can finish with. -/
inductive RouteError where
  | notInitialized
  | budgetExceeded (reason : String) (budgetType : String) (usage : ℚ) (limit : ℚ)
  | rateLimited (reason : String) (retryAfter : Option ℚ)
  | noProviders
  | endpointFailure (error : String)
  | allProvidersFailed (attempts : List RoutingAttempt)
  deriving DecidableEq

/-- `selectProviders` (src/core/router.ts lines 333–358): filter to enabled
endpoints in insertion order, fail on none, then dispatch on the strategy.
The runtime value `'speculative'` matches no case and falls through to the
switch's `default`, which is `sortByPriority`. -/
def Router.selectProviders (r : Router) (_request : ChatRequest) :
    Except RouteError (List String) :=
  let availableProviders :=
    (r.providers.filter fun e => e.2.config.enabled).map fun e => e.1
  if availableProviders = [] then
    .error .noProviders
  else
    .ok <|
      match r.config.strategy with
      | .cost => r.sortByCost availableProviders
      | .speed => r.sortBySpeed availableProviders
      | .quality => r.sortByQuality availableProviders
      | .balanced => r.sortByBalanced availableProviders _request
      | .priority => r.sortByPriority availableProviders
      | .fallback => r.sortByPriority availableProviders
      | .speculative => r.sortByPriority availableProviders

/-- `getRoutingReason` (src/core/router.ts lines 444–466); the interpolated
numeric values of the source strings are elided. -/
def Router.getRoutingReason (r : Router) (providerId : String) : String :=
  match mapGet r.providers providerId with
  | none => "Unknown"
  | some _provider =>
    match r.config.strategy with
    | .cost => "Selected for lowest cost"
    | .speed => "Selected for lowest latency"
    | .quality => "Selected for highest quality"
    | .balanced => "Selected for balanced performance"
    | .priority => "Selected based on priority order"
    | .fallback => "Selected based on priority order"
    | .speculative => "Selected by routing strategy"

/-- `createRoutingDecision` (src/core/router.ts lines 430–442). -/
def Router.createRoutingDecision (r : Router) (selectedProvider : String)
    (allProviders : List String) (fallbackTriggered : Bool) : RoutingDecision :=
  { selectedProvider
    strategy := r.config.strategy
    reasoning := r.getRoutingReason selectedProvider
    alternatives := allProviders.filter fun p => p ≠ selectedProvider
    fallbackTriggered }

/-- The per-endpoint part of `updateMetrics` (src/core/router.ts lines
476–486): the request counter is incremented first, and the running-average
latency is then folded with the incremented counter as divisor. -/
def ProviderMetrics.applySuccess (m : ProviderMetrics) (tokensTotal : ℕ) (cost : ℚ)
    (duration : ℚ) (now : ℚ) : ProviderMetrics :=
  let requestCount := m.requestCount + 1
  let totalLatency := m.avgLatency * ((requestCount : ℚ) - 1) + duration
  { m with
    requestCount
    successCount := m.successCount + 1
    totalTokens := m.totalTokens + tokensTotal
    totalCost := m.totalCost + cost
    lastUsed := now
    avgLatency := totalLatency / (requestCount : ℚ) }

/-- The per-endpoint part of `updateFailureMetrics` (src/core/router.ts lines
498–499): request and failure counters only. -/
def ProviderMetrics.applyFailure (m : ProviderMetrics) : ProviderMetrics :=
  { m with
    requestCount := m.requestCount + 1
    failureCount := m.failureCount + 1 }

/-- `updateMetrics` (src/core/router.ts lines 468–492): when the endpoint has
no metrics entry the whole update is skipped (including the global totals). -/
def RouterMetrics.updateMetrics (metrics : RouterMetrics) (providerId : String)
    (response : ChatResponse) (duration : ℚ) (now : ℚ) : RouterMetrics :=
  match mapGet metrics.providerMetrics providerId with
  | none => metrics
  | some pm =>
    { metrics with
      providerMetrics :=
        mapSet metrics.providerMetrics providerId
          (pm.applySuccess response.tokens.total response.cost duration now),
      totalRequests := metrics.totalRequests + 1,
      totalCost := metrics.totalCost + response.cost,
      totalTokens := metrics.totalTokens + response.tokens.total }

/-- `updateFailureMetrics` (src/core/router.ts lines 494–500). -/
def RouterMetrics.updateFailureMetrics (metrics : RouterMetrics)
    (providerId : String) : RouterMetrics :=
  match mapGet metrics.providerMetrics providerId with
  | none => metrics
  | some pm =>
    { metrics with
      providerMetrics := mapSet metrics.providerMetrics providerId pm.applyFailure }

/-- The outcome one adapter call produces for the current request: `chat`
(or `chatStream`) either resolves with a response after `duration`
milliseconds or rejects with an error message after `duration` milliseconds. -/
inductive AttemptOutcome where
  | succ (response : ChatResponse) (duration : ℚ)
  | fail (error : String) (duration : ℚ)
  deriving DecidableEq

/-- Oracle for the adapters' observable behavior in one call. -/
def Behavior : Type := String → AttemptOutcome

/-- `getMetrics` (src/core/router.ts lines 276–281): a defensive copy, which
in a pure embedding is the metrics value itself. -/
def Router.getMetrics (r : Router) : RouterMetrics :=
  r.metrics

/-- `resetMetrics` (src/core/router.ts lines 322–327): fresh empty metrics,
then one empty per-endpoint entry per registered provider, in provider-map
insertion order. -/
def Router.resetMetrics (r : Router) : Router :=
  { r with
    metrics :=
      { createEmptyMetrics with
        providerMetrics :=
          r.providers.foldl
            (fun acc e => mapSet acc e.1 (createEmptyProviderMetrics e.1)) [] } }

/-- The `for (const providerId of selectedProviders)` loop of `route`
(src/core/router.ts lines 119–181).  On success the successful attempt is
pushed first and `fallbackTriggered` is then computed as
`attempts.length > 0` (line 149), i.e. over the list that already contains
the success. -/
def Router.routeLoop (beh : Behavior) (selectedProviders : List String)
    (startTime : ℚ) :
    Router → List String → List RoutingAttempt → ℚ →
    Except RouteError RoutingResult × Router
  | r, [], attempts, _now => (.error (.allProvidersFailed attempts), r)
  | r, providerId :: rest, attempts, now =>
    match mapGet r.providers providerId with
    | none => Router.routeLoop beh selectedProviders startTime r rest attempts now
    | some _provider =>
      match beh providerId with
      | .succ response duration =>
        let attempts' := attempts ++ [{ provider := providerId, success := true, duration }]
        let r' :=
          { r with
            metrics := r.metrics.updateMetrics providerId response duration (now + duration),
            limiter := r.limiter.recordUsage response.tokens (now + duration) }
        let fallbackTriggered := decide (attempts'.length > 0)
        let routingDecision :=
          r'.createRoutingDecision providerId selectedProviders fallbackTriggered
        (.ok
          { provider := routingDecision.selectedProvider
            response
            routingDecision
            attempts := attempts'
            totalCost := response.cost
            totalDuration := now + duration - startTime }, r')
      | .fail error duration =>
        let attempts' :=
          attempts ++ [{ provider := providerId, success := false, duration, error := some error }]
        let r' := { r with metrics := r.metrics.updateFailureMetrics providerId }
        if r.config.fallbackEnabled then
          Router.routeLoop beh selectedProviders startTime r' rest attempts' (now + duration)
        else
          (.error (.endpointFailure error), r')

/-- `route` (src/core/router.ts lines 83–202): initialization guard, budget
gate, rate gate, candidate selection, then the sequential try-with-fallback
loop.  The switch in `selectProviders` has no `'speculative'` case, so every
strategy — `'speculative'` included — goes through this same sequential loop. -/
def Router.route (r : Router) (beh : Behavior) (request : ChatRequest) (now : ℚ) :
    Except RouteError RoutingResult × Router :=
  if r.initialized = false then
    (.error .notInitialized, r)
  else
    let budgetCheck := r.limiter.checkBudget now request
    if budgetCheck.allowed = false then
      (.error (.budgetExceeded (budgetCheck.reason.getD "Budget exceeded")
        (budgetCheck.budgetType.getD "daily") budgetCheck.usage budgetCheck.limit), r)
    else
      let rateLimitCheck := r.limiter.checkRateLimits now
      if rateLimitCheck.allowed = false then
        (.error (.rateLimited (rateLimitCheck.reason.getD "Rate limit exceeded")
          rateLimitCheck.retryAfter), r)
      else
        match r.selectProviders request with
        | .error e => (.error e, r)
        | .ok selectedProviders =>
          Router.routeLoop beh selectedProviders now r selectedProviders [] now

/-- The `for` loop of `routeStream` (src/core/router.ts lines 220–264): like
the sequential loop of `route` but the built decision always carries
`fallbackTriggered = false` (line 245) and a failed attempt does not update
the failure metrics. -/
def Router.routeStreamLoop (beh : Behavior) (selectedProviders : List String)
    (startTime : ℚ) :
    Router → List String → List RoutingAttempt → ℚ →
    Except RouteError RoutingResult × Router
  | r, [], attempts, _now => (.error (.allProvidersFailed attempts), r)
  | r, providerId :: rest, attempts, now =>
    match mapGet r.providers providerId with
    | none => Router.routeStreamLoop beh selectedProviders startTime r rest attempts now
    | some _provider =>
      match beh providerId with
      | .succ response duration =>
        let attempts' := attempts ++ [{ provider := providerId, success := true, duration }]
        let r' :=
          { r with
            metrics := r.metrics.updateMetrics providerId response duration (now + duration),
            limiter := r.limiter.recordUsage response.tokens (now + duration) }
        (.ok
          { provider := providerId
            response
            routingDecision := r'.createRoutingDecision providerId selectedProviders false
            attempts := attempts'
            totalCost := response.cost
            totalDuration := now + duration - startTime }, r')
      | .fail error duration =>
        let attempts' :=
          attempts ++ [{ provider := providerId, success := false, duration, error := some error }]
        if r.config.fallbackEnabled then
          Router.routeStreamLoop beh selectedProviders startTime r rest attempts' (now + duration)
        else
          (.error (.endpointFailure error), r)

/-- `routeStream` (src/core/router.ts lines 207–271): initialization guard,
then provider selection and the sequential streaming loop.  Unlike `route`,
there is no call to `checkBudget` or `checkRateLimits`. -/
def Router.routeStream (r : Router) (beh : Behavior) (request : ChatRequest)
    (now : ℚ) : Except RouteError RoutingResult × Router :=
  if r.initialized = false then
    (.error .notInitialized, r)
  else
    match r.selectProviders request with
    | .error e => (.error e, r)
    | .ok selectedProviders =>
      Router.routeStreamLoop beh selectedProviders now r selectedProviders [] now

-- ============================================================================
-- Concrete fixtures (mirroring the repository's test configurations)
-- ============================================================================

/-- The fast endpoint of the speculative test fixture
(tests/speculative.test.ts): priority 1, cost 10, latency 50. -/
def cfgFast : ProviderConfig :=
  { id := "fast-provider", name := "Fast Provider", type := "custom", enabled := true,
    priority := 1, maxTokens := 4000, costPerMillionTokens := 10, latency := 50,
    availability := 0.95 }

/-- The medium endpoint: priority 2, cost 8, latency 150. -/
def cfgMedium : ProviderConfig :=
  { id := "medium-provider", name := "Medium Provider", type := "custom", enabled := true,
    priority := 2, maxTokens := 4000, costPerMillionTokens := 8, latency := 150,
    availability := 0.9 }

/-- The slow endpoint: priority 3, cost 5, latency 300. -/
def cfgSlow : ProviderConfig :=
  { id := "slow-provider", name := "Slow Provider", type := "custom", enabled := true,
    priority := 3, maxTokens := 4000, costPerMillionTokens := 5, latency := 300,
    availability := 0.85 }

def provFast : Provider := { id := "fast-provider", config := cfgFast }

def provMedium : Provider := { id := "medium-provider", config := cfgMedium }

def provSlow : Provider := { id := "slow-provider", config := cfgSlow }

/-- A router driven with the runtime strategy value `'speculative'`, three
registered providers, fallback enabled, after initialization — the
configuration of tests/speculative.test.ts. -/
def specRouter : Router :=
  { (((Router.new
        { strategy := .speculative, fallbackEnabled := true, maxRetries := 3,
          timeout := 10000 }).registerProvider provFast).registerProvider
        provMedium).registerProvider provSlow with
    initialized := true }

def cfgP1 : ProviderConfig :=
  { id := "p1", name := "Provider One", type := "custom", enabled := true,
    priority := 1, maxTokens := 4000, costPerMillionTokens := 10, latency := 100,
    availability := 0.99 }

def provP1 : Provider := { id := "p1", config := cfgP1 }

/-- A response from `p1` with the mock token counts 10/20/30. -/
def respP1 : ChatResponse :=
  { content := "Response from p1", model := "mock-model", provider := "p1",
    tokens := { input := 10, output := 20, total := 30 }, cost := 3 / 10000,
    duration := 100, finishReason := "stop" }

/-- Every adapter call succeeds with `respP1` after 100 ms. -/
def behP1 : Behavior := fun _ => .succ respP1 100

/-- A one-provider router with the priority strategy, fallback enabled,
no budget or rate limits, after initialization. -/
def routerOne : Router :=
  { (Router.new
      { strategy := .priority, fallbackEnabled := true, maxRetries := 3,
        timeout := 10000 }).registerProvider provP1 with
    initialized := true }

/-- A daily-token ceiling of 1 token: any request's estimate exceeds it. -/
def tinyBudget : BudgetLimits :=
  { dailyTokens := 1, dailyCost := 0, monthlyTokens := 0, monthlyCost := 0,
    alertThreshold := 80 }

/-- A one-provider router whose budget gate rejects every request. -/
def routerGate : Router :=
  { (Router.new
      { strategy := .priority, fallbackEnabled := true, maxRetries := 3,
        timeout := 10000, budgetLimits := some tinyBudget }).registerProvider provP1 with
    initialized := true }

/-- A response from the slow provider (cost 5 $/M × 30 tokens). -/
def respSlow : ChatResponse :=
  { content := "Response from slow-provider", model := "mock-model",
    provider := "slow-provider",
    tokens := { input := 10, output := 20, total := 30 }, cost := 15 / 100000,
    duration := 300, finishReason := "stop" }

/-- The fast and medium adapters fail; the slow adapter succeeds. -/
def behTwoFail : Behavior := fun id =>
  if id = "fast-provider" then .fail "Provider failed" 50
  else if id = "medium-provider" then .fail "Provider failed" 150
  else .succ respSlow 300

-- ============================================================================
-- C1 — fallbackTriggered on a first-candidate success
-- ============================================================================

/-- C1: a `route()` call whose very first candidate succeeds nevertheless
returns `fallbackTriggered = true`, because the successful attempt is pushed
into `attempts` before `fallbackTriggered` is computed as
`attempts.length > 0` (src/core/router.ts lines 137–149).  The result below
has zero failed attempts, yet the flag is `true` — contradicting the claimed
"true iff at least one earlier attempt failed" and the source's own comment
"Fallback was triggered if we had previous failed attempts". -/
theorem route_first_success_sets_fallbackTriggered :
    ((Router.route routerOne behP1 { prompt := "test" } 0).1.toOption.map fun res =>
        (res.routingDecision.fallbackTriggered,
         (res.attempts.filter fun a => !a.success).length)) =
      some (true, 0) := by
  decide

-- ============================================================================
-- C2 — routeStream and the budget/rate gates
-- ============================================================================

/-- C2 counterexample: a state whose budget check disallows the request
(`allowed = false`), yet `routeStream` neither throws `BudgetExceeded` nor
`RateLimited`: it invokes the adapter and returns a successful result with
one recorded attempt.  `routeStream` (src/core/router.ts lines 207–271)
contains no call to `checkBudget` or `checkRateLimits`. -/
theorem routeStream_ignores_failing_budget_gate :
    (routerGate.limiter.checkBudget 0 { prompt := "hi" }).allowed = false ∧
    ((Router.routeStream routerGate behP1 { prompt := "hi" } 0).1.toOption.map fun res =>
        (res.provider, res.attempts.length)) = some ("p1", 1) := by
  constructor
  · have hbl : routerGate.limiter.budgetLimits = some tinyBudget := rfl
    have hdu : routerGate.limiter.dailyUsage = [] := rfl
    have hlen : "hi".length = 2 := rfl
    simp only [TokenLimiter.checkBudget, hbl, TokenLimiter.calculateDailyUsage, hdu,
      TokenLimiter.estimateRequestTokens, TokenLimiter.estimateTextTokens,
      TokenLimiter.estimateCost, tinyBudget, List.filter_nil, List.map_nil, List.sum_nil,
      hlen]
    norm_num
  · decide

/-- Any error produced by `selectProviders` is the no-providers condition. -/
theorem selectProviders_error_eq_noProviders (r : Router) (request : ChatRequest)
    (e : RouteError) (h : r.selectProviders request = .error e) :
    e = .noProviders := by
  simp only [Router.selectProviders] at h
  by_cases hav :
      (List.filter (fun e => e.2.config.enabled) r.providers).map (fun e => e.1) = []
  · rw [if_pos hav] at h
    exact (Except.error.inj h).symm
  · rw [if_neg hav] at h
    exact absurd h (by simp)

/-- Is the outcome one of the two typed gate errors? -/
def isGateError : Except RouteError RoutingResult → Bool
  | .error (.budgetExceeded _ _ _ _) => true
  | .error (.rateLimited _ _) => true
  | _ => false

theorem routeStreamLoop_no_gate_error (beh : Behavior) (sel : List String)
    (start : ℚ) (ids : List String) :
    ∀ (r : Router) (attempts : List RoutingAttempt) (now : ℚ),
      isGateError (Router.routeStreamLoop beh sel start r ids attempts now).1 = false := by
  induction ids with
  | nil => intro r attempts now; rfl
  | cons id rest ih =>
    intro r attempts now
    unfold Router.routeStreamLoop
    split
    · exact ih r attempts now
    · split
      · rfl
      · split
        · exact ih _ _ _
        · rfl

/-- C2 amended: `routeStream` performs no budget or rate-limit gating at all —
whatever the limiter state, it never finishes with `BudgetExceeded` or
`RateLimited`; it proceeds straight to candidate selection and the streaming
loop (whose outcomes are success, `NotInitialized`, `NoProvidersAvailable`,
a re-thrown endpoint failure, or `AllProvidersFailed`). -/
theorem routeStream_never_throws_gate_error (r : Router) (beh : Behavior)
    (request : ChatRequest) (now : ℚ) :
    isGateError (Router.routeStream r beh request now).1 = false := by
  unfold Router.routeStream
  split
  · rfl
  · split
    · rename_i e h
      rw [selectProviders_error_eq_noProviders r request e h]
      rfl
    · exact routeStreamLoop_no_gate_error ..

-- ============================================================================
-- C3 / C4 — the runtime strategy value 'speculative'
-- ============================================================================

/-- C3: with strategy `'speculative'`, sub-strategy speed and candidate count
2 configured (tests/speculative.test.ts), candidate selection does not return
the first 2 identifiers of the speed ordering: `selectProviders`
(src/core/router.ts lines 342–358) has no `'speculative'` case, so the value
falls through to the `default` branch and the full, untruncated priority
ordering of all three enabled endpoints is returned. -/
theorem selectProviders_speculative_falls_to_priority :
    (Router.selectProviders specRouter { prompt := "Test prompt" }).toOption =
      some ["fast-provider", "medium-provider", "slow-provider"] ∧
    ((Router.selectProviders specRouter { prompt := "Test prompt" }).toOption.map
        List.length) ≠ some 2 := by
  decide

/-- C4: with strategy `'speculative'` and candidate count 2, `route`
(src/core/router.ts lines 119–181) runs the ordinary sequential
try-with-fallback loop over the full candidate list: when the two
highest-ranked candidates fail and the third succeeds, the call returns the
third provider after three sequential attempts — whereas the claimed race
over the 2 selected candidates launches no third call and would end in
exhaustion.  No concurrent launch, shared cancellation signal, or
first-success wait exists in the code. -/
theorem route_speculative_is_sequential_loop :
    ((Router.route specRouter behTwoFail { prompt := "Test prompt" } 0).1.toOption.map
        fun res =>
          (res.provider, res.attempts.length, res.attempts.map fun a => a.success)) =
      some ("slow-provider", 3, [false, false, true]) := by
  decide

-- ============================================================================
-- C5 — sortedness of the single-key strategies
-- ============================================================================

instance {ε α : Type} [DecidableEq ε] [DecidableEq α] : DecidableEq (Except ε α) := fun a b =>
  match a, b with
  | .ok x, .ok y =>
    if h : x = y then .isTrue (h ▸ rfl) else .isFalse fun hh => h (Except.ok.inj hh)
  | .ok _, .error _ => .isFalse fun hh => Except.noConfusion hh
  | .error _, .ok _ => .isFalse fun hh => Except.noConfusion hh
  | .error x, .error y =>
    if h : x = y then .isTrue (h ▸ rfl) else .isFalse fun hh => h (Except.error.inj hh)

/-- C5: whenever candidate selection succeeds, the returned order is sorted
non-decreasing by the strategy's declared key — cost per million tokens for
`cost`, latency for `speed`, and priority rank for `quality`, `priority` and
`fallback` (src/core/router.ts lines 342–358 and 360–419). -/
theorem selectProviders_sorted_by_declared_key (r : Router) (request : ChatRequest)
    (l : List String) :
    (r.config.strategy = .cost → r.selectProviders request = .ok l →
      List.Sorted (leBy fun id => (r.getConfig id).costPerMillionTokens) l) ∧
    (r.config.strategy = .speed → r.selectProviders request = .ok l →
      List.Sorted (leBy fun id => (r.getConfig id).latency) l) ∧
    (r.config.strategy = .quality → r.selectProviders request = .ok l →
      List.Sorted (leBy fun id => (r.getConfig id).priority) l) ∧
    (r.config.strategy = .priority → r.selectProviders request = .ok l →
      List.Sorted (leBy fun id => (r.getConfig id).priority) l) ∧
    (r.config.strategy = .fallback → r.selectProviders request = .ok l →
      List.Sorted (leBy fun id => (r.getConfig id).priority) l) := by
  refine ⟨?_, ?_, ?_, ?_, ?_⟩ <;> intro hs h <;>
    simp only [Router.selectProviders, hs] at h <;>
    split at h
  case _ => exact absurd h (by simp)
  case _ =>
    rw [Except.ok.injEq] at h
    subst h
    exact List.sorted_insertionSort _ _
  case _ => exact absurd h (by simp)
  case _ =>
    rw [Except.ok.injEq] at h
    subst h
    exact List.sorted_insertionSort _ _
  case _ => exact absurd h (by simp)
  case _ =>
    rw [Except.ok.injEq] at h
    subst h
    exact List.sorted_insertionSort _ _
  case _ => exact absurd h (by simp)
  case _ =>
    rw [Except.ok.injEq] at h
    subst h
    exact List.sorted_insertionSort _ _
  case _ => exact absurd h (by simp)
  case _ =>
    rw [Except.ok.injEq] at h
    subst h
    exact List.sorted_insertionSort _ _

/-- The speculative fixture rewired to the `'cost'` strategy. -/
def routerCost : Router :=
  { specRouter with config := { specRouter.config with strategy := .cost } }

/-- Witness for C5: on the three-provider fixture under the `cost` strategy
(costs 5, 8, 10), selection returns the cost-ascending order and that order
is sorted by declared cost. -/
theorem selectProviders_sorted_by_declared_key_witness :
    List.Sorted (leBy fun id => (routerCost.getConfig id).costPerMillionTokens)
      ["slow-provider", "medium-provider", "fast-provider"] :=
  (selectProviders_sorted_by_declared_key routerCost { prompt := "t" }
      ["slow-provider", "medium-provider", "fast-provider"]).1 rfl (by decide)

-- ============================================================================
-- C6 — the balanced strategy
-- ============================================================================

/-- The balanced per-endpoint score exactly as the specification words it:
0.4×(1 − cost/100) + 0.3×(1 − latency/10000) + 0.2×(1 − priorityRank/100)
+ 0.1×availabilityScore. -/
def specBalancedScore (config : ProviderConfig) : ℚ :=
  0.4 * (1 - config.costPerMillionTokens / 100) + 0.3 * (1 - config.latency / 10000) +
    0.2 * (1 - config.priority / 100) + 0.1 * config.availability

/-- C6: the score computed by `sortByBalanced` (src/core/router.ts lines
388–411) coincides with the specification's formula; the returned candidate
list is sorted non-increasing by that score; and the order depends only on
the four declared fields — two routers assigning every candidate identical
cost, latency, priority and availability produce identical orders, for any
requests (so re-running selection with unchanged descriptors is
deterministic). -/
theorem sortByBalanced_score_formula_and_order (r : Router) :
    (∀ config : ProviderConfig, balancedScore config = specBalancedScore config) ∧
    (∀ (providerIds : List String) (request : ChatRequest),
      List.Pairwise
        (fun a b => balancedScore (r.getConfig b) ≤ balancedScore (r.getConfig a))
        (r.sortByBalanced providerIds request)) ∧
    (∀ (r' : Router) (providerIds : List String) (request request' : ChatRequest),
      (∀ id ∈ providerIds,
        (r.getConfig id).costPerMillionTokens = (r'.getConfig id).costPerMillionTokens ∧
        (r.getConfig id).latency = (r'.getConfig id).latency ∧
        (r.getConfig id).priority = (r'.getConfig id).priority ∧
        (r.getConfig id).availability = (r'.getConfig id).availability) →
      r.sortByBalanced providerIds request = r'.sortByBalanced providerIds request') := by
  refine ⟨?_, ?_, ?_⟩
  · intro config
    simp only [balancedScore, specBalancedScore]
    ring
  · intro providerIds request
    unfold Router.sortByBalanced
    rw [List.pairwise_map]
    have hmem :
        ∀ p ∈ List.insertionSort (geBy fun s : String × ℚ => s.2)
            (providerIds.map fun id => (id, balancedScore (r.getConfig id))),
          p.2 = balancedScore (r.getConfig p.1) := by
      intro p hp
      rw [List.mem_insertionSort] at hp
      obtain ⟨id, _, rfl⟩ := List.mem_map.mp hp
      rfl
    have hs :
        List.Pairwise (geBy fun s : String × ℚ => s.2)
          (List.insertionSort (geBy fun s : String × ℚ => s.2)
            (providerIds.map fun id => (id, balancedScore (r.getConfig id)))) :=
      List.sorted_insertionSort _ _
    refine hs.imp_of_mem ?_
    intro a b ha hb hr
    rw [← hmem a ha, ← hmem b hb]
    exact hr
  · intro r' providerIds request request' hfields
    unfold Router.sortByBalanced
    have hmap :
        (providerIds.map fun id => (id, balancedScore (r.getConfig id))) =
          providerIds.map fun id => (id, balancedScore (r'.getConfig id)) := by
      refine List.map_congr_left ?_
      intro id hid
      obtain ⟨h1, h2, h3, h4⟩ := hfields id hid
      simp only [balancedScore, h1, h2, h3, h4]
    rw [hmap]

/-- Witness for C6: on the speculative fixture, the balanced order of the
singleton candidate list is independent of the request, by the determinism
part of the theorem applied with identical descriptors. -/
theorem sortByBalanced_score_formula_and_order_witness :
    Router.sortByBalanced specRouter ["fast-provider"] { prompt := "a" } =
      Router.sortByBalanced specRouter ["fast-provider"] { prompt := "b" } :=
  (sortByBalanced_score_formula_and_order specRouter).2.2 specRouter
    ["fast-provider"] { prompt := "a" } { prompt := "b" }
    (fun _ _ => ⟨rfl, rfl, rfl, rfl⟩)

-- ============================================================================
-- C7 — the running-average latency
-- ============================================================================

/-- One metrics-relevant event at an endpoint: a successful request (token
total, cost, duration, completion time) or a failed attempt. -/
inductive MetricEvent where
  | succ (tokensTotal : ℕ) (cost : ℚ) (duration : ℚ) (now : ℚ)
  | fail
  deriving DecidableEq

/-- Apply one event to the endpoint's metrics entry, exactly as
`updateMetrics`/`updateFailureMetrics` do (src/core/router.ts lines 468–500). -/
def ProviderMetrics.applyEvent (m : ProviderMetrics) : MetricEvent → ProviderMetrics
  | .succ tokensTotal cost duration now => m.applySuccess tokensTotal cost duration now
  | .fail => m.applyFailure

/-- Fold a sequence of interleaved events over an endpoint's metrics entry. -/
def runEvents (m : ProviderMetrics) (events : List MetricEvent) : ProviderMetrics :=
  events.foldl ProviderMetrics.applyEvent m

/-- One step of the claim's incremental average `avg += (newValue − avg) / count`,
where `count` counts exactly the averaged values. -/
def incrementalStep (acc : ℚ × ℕ) (d : ℚ) : ℚ × ℕ :=
  (acc.1 + (d - acc.1) / ((acc.2 : ℚ) + 1), acc.2 + 1)

/-- The incremental average of a list of values, per the claim's recurrence. -/
def incrementalAvg (ds : List ℚ) : ℚ :=
  (ds.foldl incrementalStep ((0 : ℚ), (0 : ℕ))).1

theorem runEvents_all_succ_avg (ds : List (ℕ × ℚ × ℚ × ℚ)) :
    ∀ (m : ProviderMetrics) (acc : ℚ × ℕ), m.avgLatency = acc.1 → m.requestCount = acc.2 →
      (runEvents m (ds.map fun x => MetricEvent.succ x.1 x.2.1 x.2.2.1 x.2.2.2)).avgLatency =
        ((ds.map fun x => x.2.2.1).foldl incrementalStep acc).1 := by
  induction ds with
  | nil =>
    intro m acc h1 _
    simpa [runEvents] using h1
  | cons x rest ih =>
    intro m acc h1 h2
    simp only [List.map_cons, runEvents, List.foldl_cons]
    refine ih _ _ ?_ ?_
    · simp only [ProviderMetrics.applyEvent, ProviderMetrics.applySuccess, incrementalStep]
      rw [h1, h2]
      have hne : ((acc.2 : ℚ) + 1) ≠ 0 := by positivity
      push_cast
      field_simp
      ring
    · simp only [ProviderMetrics.applyEvent, ProviderMetrics.applySuccess, incrementalStep, h2]

/-- C7 counterexample: from a fresh metrics entry, a failed attempt followed
by one successful request of duration 2 leaves `avgLatency = 1`, because the
divisor of the incremental update is the total request count (2, including
the failure) — while the claim's incremental average over the successful
durations alone is 2. -/
theorem avgLatency_failure_inflates_divisor :
    (runEvents (createEmptyProviderMetrics "p")
        [MetricEvent.fail, MetricEvent.succ 30 0 2 0]).avgLatency = 1 ∧
    incrementalAvg [2] = 2 ∧ (1 : ℚ) ≠ 2 := by
  refine ⟨?_, ?_, by norm_num⟩
  · simp only [runEvents, List.foldl_cons, List.foldl_nil, ProviderMetrics.applyEvent,
      ProviderMetrics.applyFailure, ProviderMetrics.applySuccess, createEmptyProviderMetrics]
    norm_num
  · simp only [incrementalAvg, List.foldl_cons, List.foldl_nil, incrementalStep]
    norm_num

/-- C7 amended: a failed attempt increments only the request and failure
counters and leaves the stored average (and every other field) unchanged at
that step, but it enlarges the request count that divides later updates;
consequently the running average equals the claim's incremental average over
the successful durations exactly on histories consisting of successful
requests only. -/
theorem avgLatency_incremental_over_total_count :
    (∀ m : ProviderMetrics,
      m.applyFailure.avgLatency = m.avgLatency ∧
      m.applyFailure.successCount = m.successCount ∧
      m.applyFailure.totalTokens = m.totalTokens ∧
      m.applyFailure.totalCost = m.totalCost ∧
      m.applyFailure.lastUsed = m.lastUsed ∧
      m.applyFailure.requestCount = m.requestCount + 1 ∧
      m.applyFailure.failureCount = m.failureCount + 1) ∧
    (∀ (providerId : String) (ds : List (ℕ × ℚ × ℚ × ℚ)),
      (runEvents (createEmptyProviderMetrics providerId)
          (ds.map fun x => MetricEvent.succ x.1 x.2.1 x.2.2.1 x.2.2.2)).avgLatency =
        incrementalAvg (ds.map fun x => x.2.2.1)) := by
  constructor
  · intro m
    exact ⟨rfl, rfl, rfl, rfl, rfl, rfl, rfl⟩
  · intro providerId ds
    exact runEvents_all_succ_avg ds (createEmptyProviderMetrics providerId) (0, 0) rfl rfl

-- ============================================================================
-- C8 — budget gating with absent or zero ceilings
-- ============================================================================

/-- C8: `checkBudget` (src/core/limiter.ts lines 67–135) always allows when no
budget configuration was supplied; whenever it disallows, the ceiling it
reports as violated is strictly positive (every ceiling test is guarded by
`> 0`, so a zero ceiling is never the cause); and with every ceiling equal to
zero it always allows. -/
theorem checkBudget_zero_means_unlimited (lim : TokenLimiter) (now : ℚ)
    (request : ChatRequest) :
    (lim.budgetLimits = none → (lim.checkBudget now request).allowed = true) ∧
    ((lim.checkBudget now request).allowed = false →
      0 < (lim.checkBudget now request).limit) ∧
    (∀ limits : BudgetLimits, lim.budgetLimits = some limits →
      limits.dailyTokens = 0 → limits.dailyCost = 0 → limits.monthlyTokens = 0 →
      limits.monthlyCost = 0 → (lim.checkBudget now request).allowed = true) := by
  refine ⟨?_, ?_, ?_⟩
  · intro h
    simp [TokenLimiter.checkBudget, h]
  · cases hbl : lim.budgetLimits with
    | none => simp [TokenLimiter.checkBudget, hbl]
    | some limits =>
      simp only [TokenLimiter.checkBudget, hbl]
      split_ifs with h1 h2 h3 h4
      · intro _; exact h1.1
      · intro _; exact h2.1
      · intro _; exact h3.1
      · intro _; exact h4.1
      · intro h; simp at h
  · intro limits hbl hz1 hz2 hz3 hz4
    simp [TokenLimiter.checkBudget, hbl, hz1, hz2, hz3, hz4]

/-- Witness for C8: a limiter constructed without budget limits allows a
concrete request. -/
theorem checkBudget_zero_means_unlimited_witness :
    (TokenLimiter.checkBudget {} 0 { prompt := "t" }).allowed = true :=
  (checkBudget_zero_means_unlimited {} 0 { prompt := "t" }).1 rfl

-- ============================================================================
-- C9 — resetMetrics / getMetrics round trip
-- ============================================================================

theorem foldl_mapSet_ne_nil {β : Type} (f : String → β) :
    ∀ (l : List (String × Provider)) (init : List (String × β)), init ≠ [] →
      l.foldl (fun acc e => mapSet acc e.1 (f e.1)) init ≠ [] := by
  intro l
  induction l with
  | nil =>
    intro init h
    simpa using h
  | cons e rest ih =>
    intro init _
    simp only [List.foldl_cons]
    exact ih _ (mapSet_ne_nil _ _ _)

/-- C9 counterexample: on a router with one registered provider,
`resetMetrics()` followed by `getMetrics()` yields a per-endpoint map that is
not empty — `resetMetrics` (src/core/router.ts lines 322–327) re-creates one
all-zero entry per registered provider. -/
theorem resetMetrics_providerMap_not_empty :
    ((Router.resetMetrics routerOne).getMetrics).providerMetrics ≠ [] := by
  decide

/-- C9 amended: after `resetMetrics()`, `getMetrics()` returns all-zero
global counters and a per-endpoint map holding exactly one freshly
reinitialized (all-zero) entry per registered provider — so the map is empty
iff no provider is registered. -/
theorem resetMetrics_zero_counters_per_provider_entries (r : Router) :
    ((r.resetMetrics).getMetrics).totalRequests = 0 ∧
    ((r.resetMetrics).getMetrics).totalCost = 0 ∧
    ((r.resetMetrics).getMetrics).totalTokens = 0 ∧
    ((r.resetMetrics).getMetrics).rateLimitHits = 0 ∧
    ((r.resetMetrics).getMetrics).fallbackCount = 0 ∧
    ((r.resetMetrics).getMetrics).budgetUsage = createEmptyMetrics.budgetUsage ∧
    ((r.resetMetrics).getMetrics).providerMetrics =
      r.providers.foldl
        (fun acc e => mapSet acc e.1 (createEmptyProviderMetrics e.1)) [] ∧
    (((r.resetMetrics).getMetrics).providerMetrics = [] ↔ r.providers = []) := by
  refine ⟨rfl, rfl, rfl, rfl, rfl, rfl, rfl, ?_⟩
  show r.providers.foldl (fun acc e => mapSet acc e.1 (createEmptyProviderMetrics e.1)) []
      = [] ↔ r.providers = []
  cases hp : r.providers with
  | nil => simp
  | cons e rest =>
    simp only [List.foldl_cons]
    constructor
    · intro h
      exact absurd h (foldl_mapSet_ne_nil _ rest _ (mapSet_ne_nil _ _ _))
    · intro h
      exact absurd h (by simp)

-- ============================================================================
-- C10 — registerProvider and the metrics map
-- ============================================================================

/-- C10: `registerProvider` (src/core/router.ts lines 53–56) reinitializes the
per-endpoint metrics entry of the registered id to the all-zero entry —
discarding any accumulated counters for that id — and leaves the metrics
entry of every other id unchanged. -/
theorem registerProvider_reinitializes_entry (r : Router) (p : Provider) :
    mapGet ((r.registerProvider p).metrics.providerMetrics) p.id =
      some (createEmptyProviderMetrics p.id) ∧
    ∀ q : String, q ≠ p.id →
      mapGet ((r.registerProvider p).metrics.providerMetrics) q =
        mapGet r.metrics.providerMetrics q := by
  constructor
  · exact mapGet_mapSet_same _ _ _
  · intro q hq
    exact mapGet_mapSet_other _ _ _ _ hq

/-- A second provider under a fresh identifier. -/
def provQ : Provider := { id := "q1", config := { cfgP1 with id := "q1" } }

/-- Witness for C10: registering `q1` on the one-provider router leaves the
metrics entry of `p1` unchanged. -/
theorem registerProvider_reinitializes_entry_witness :
    mapGet ((routerOne.registerProvider provQ).metrics.providerMetrics) "p1" =
      mapGet routerOne.metrics.providerMetrics "p1" :=
  (registerProvider_reinitializes_entry routerOne provQ).2 "p1" (by decide)

/-- Witness for C9 (amended): concrete instantiation on the one-provider
router — the reset metrics carry a zero total-request counter and the
per-endpoint map is empty exactly when no provider is registered. -/
theorem resetMetrics_zero_counters_per_provider_entries_witness :
    ((routerOne.resetMetrics).getMetrics).totalRequests = 0 :=
  (resetMetrics_zero_counters_per_provider_entries routerOne).1
